import Mathlib

/-!
Shallow embedding of the subscription/entitlement and chat-mutation logic of a
Django/GraphQL chat backend.

The persistent store (Django ORM) is modelled as an explicit `State` record
holding the rows of each table in store order.  Each service function of
`subscriptions/services.py` and each mutation handler of `chat/schema.py` /
`subscriptions/schema.py` becomes a Lean function from inputs and a `State`
to a result together with the successor `State`.  A raised `GraphQLError`
becomes `Except.error`; a returned value becomes `Except.ok`.

Integer conventions: Django `PositiveIntegerField` caps (`max_characters`,
`max_conversations`) are `Nat`; the `remaining` quantities are computed in
`Int` because the source lets them go negative.  Row ids are `Nat`.
-/

/-- A row of the SubscriptionPlan table (subscriptions/models.py). -/
structure Plan where
  id : Nat
  name : String
  description : String
  price : Int
  max_characters : Nat
  max_conversations : Nat
  is_active : Bool
  is_default : Bool
deriving DecidableEq

/-- A row of the UserSubscription table: one user bound to one plan.
Plans are immutable once created in the modelled API, so the subscription
stores the plan value rather than a foreign key. -/
structure UserSubscription where
  user : Nat
  plan : Plan
deriving DecidableEq

/-- A row of the Conversation table (chat/models.py): an owner and a
many-to-many member set (modelled as a duplicate-free list). -/
structure Conversation where
  id : Nat
  title : String
  owner : Nat
  members : List Nat
deriving DecidableEq

/-- A row of the Message table (chat/models.py). -/
structure Message where
  id : Nat
  conversation : Nat
  sender : Nat
  text : String
deriving DecidableEq

/-- The persistent store: the rows of each table in store order, plus the
next fresh id for each auto-key table. -/
structure State where
  users : List Nat
  plans : List Plan
  subs : List UserSubscription
  convs : List Conversation
  msgs : List Message
  nextPlanId : Nat
  nextConvId : Nat
  nextMsgId : Nat
deriving DecidableEq

/-- get_default_plan (subscriptions/services.py, lines 10-25):
`SubscriptionPlan.objects.filter(is_default=True).first()`, creating the
fixed Free fallback plan when no plan is flagged default. -/
def get_default_plan (st : State) : Plan × State :=
  match st.plans.find? (fun p => p.is_default) with
  | some p => (p, st)
  | none =>
    let p : Plan :=
      { id := st.nextPlanId
        name := "Free"
        description := "Basic free plan with limited usage"
        price := 0
        max_characters := 5
        max_conversations := 3
        is_active := true
        is_default := true }
    (p, { st with plans := st.plans ++ [p], nextPlanId := st.nextPlanId + 1 })

/-- get_or_create_user_subscription (subscriptions/services.py, lines 28-36):
return `user.subscription` when the row exists, otherwise create one bound
to the default plan. -/
def get_or_create_user_subscription (u : Nat) (st : State) :
    UserSubscription × State :=
  match st.subs.find? (fun s => s.user == u) with
  | some s => (s, st)
  | none =>
    let r := get_default_plan st
    let s : UserSubscription := { user := u, plan := r.1 }
    (s, { r.2 with subs := r.2.subs ++ [s] })

/-- check_message_limits (subscriptions/services.py, lines 39-50). -/
def check_message_limits (u : Nat) (message_length : Nat) (st : State) :
    (Bool × Int) × State :=
  let r := get_or_create_user_subscription u st
  let remaining : Int := (r.1.plan.max_characters : Int) - message_length
  if remaining ≥ 0 then ((true, remaining), r.2) else ((false, remaining), r.2)

/-- check_conversation_limits (subscriptions/services.py, lines 53-67):
counts `user.owned_conversations` (rows whose owner is the user) and adds 1
for the conversation about to be created. -/
def check_conversation_limits (u : Nat) (st : State) : (Bool × Int) × State :=
  let r := get_or_create_user_subscription u st
  let conversation_count : Nat := (r.2.convs.filter (fun c => c.owner == u)).length
  let remaining : Int :=
    (r.1.plan.max_conversations : Int) - (conversation_count + 1)
  if remaining ≥ 0 then ((true, remaining), r.2) else ((false, remaining), r.2)

/-- Model of `subscription.save()`: update the stored row of this user.
The user field carries a uniqueness constraint (OneToOneField), and the row
Django saves here is always the first (and only) row with this user. -/
def save_subscription : List UserSubscription → UserSubscription →
    List UserSubscription
  | [], _ => []
  | t :: rest, s =>
      if t.user == s.user then s :: rest else t :: save_subscription rest s

/-- change_user_plan (subscriptions/services.py, lines 70-84):
`SubscriptionPlan.objects.get(id=plan_id, is_active=True)`; on DoesNotExist
return false with no mutation, otherwise overwrite the subscription plan. -/
def change_user_plan (u : Nat) (plan_id : Nat) (st : State) : Bool × State :=
  match st.plans.find? (fun p => p.id == plan_id && p.is_active) with
  | none => (false, st)
  | some p =>
    let r := get_or_create_user_subscription u st
    let s2 : UserSubscription := { r.1 with plan := p }
    (true, { r.2 with subs := save_subscription r.2.subs s2 })

/-- Result record of the CreateSubscriptionPlan mutation. -/
structure CreatePlanResult where
  success : Bool
  plan : Option Plan
  message : String
deriving DecidableEq

/-- CreateSubscriptionPlan.mutate (subscriptions/schema.py, lines 96-140).
`is_default` is not a declared GraphQL argument, so it always keeps its
Python default of False. -/
def CreateSubscriptionPlan_mutate (is_staff : Bool) (name description : String)
    (max_characters max_conversations : Nat) (price : Int) (is_active : Bool)
    (st : State) : Except String (CreatePlanResult × State) :=
  if !is_staff then
    .error "Permission denied. Only administrators can create subscription plans."
  else if st.plans.any (fun p => p.name == name) then
    .ok ({ success := false
           plan := none
           message := "A subscription plan with the name \x27" ++ name ++
             "\x27 already exists" }, st)
  else
    let p : Plan :=
      { id := st.nextPlanId
        name := name
        description := description
        price := price
        max_characters := max_characters
        max_conversations := max_conversations
        is_active := is_active
        is_default := false }
    .ok ({ success := true
           plan := some p
           message := "Subscription plan \x27" ++ name ++
             "\x27 created successfully" },
         { st with plans := st.plans ++ [p], nextPlanId := st.nextPlanId + 1 })

/-- Model of `conversation.members.add(m)`: a many-to-many add ignores
duplicates. -/
def add_member (ms : List Nat) (m : Nat) : List Nat :=
  if m ∈ ms then ms else ms ++ [m]

/-- The conversation row built by CreateConversation.mutate: created with
the given owner, the owner added as first member, then each existing user
of member_ids added in order (missing user ids are skipped). -/
def created_conversation (u : Nat) (title : String) (member_ids : List Nat)
    (st1 : State) : Conversation :=
  let conv0 : Conversation :=
    { id := st1.nextConvId, title := title, owner := u
      members := add_member [] u }
  member_ids.foldl
    (fun c mid =>
      if st1.users.contains mid then { c with members := add_member c.members mid }
      else c) conv0

/-- CreateConversation.mutate (chat/schema.py, lines 95-123).  The denied
branch reads `user.subscription`, which exists because the limit check just
provisioned it; `get_or_create_user_subscription` on the post-check state
returns that same row without further effect. -/
def CreateConversation_mutate (u : Nat) (title : String)
    (member_ids : List Nat) (st : State) :
    Except String (Conversation × Option String) × State :=
  let r := check_conversation_limits u st
  let allowed := r.1.1
  let remaining := r.1.2
  let st1 := r.2
  if !allowed then
    (.error ("You have reached your maximum conversation limit. Your plan allows "
        ++ toString (get_or_create_user_subscription u st1).1.plan.max_conversations
        ++ " conversations."), st1)
  else
    let conv := created_conversation u title member_ids st1
    let alert1 : Option String :=
      if remaining == 1 then
        some "Warning: You have only one conversation remaining." else none
    let alert2 : Option String :=
      if remaining == 0 then
        some "Warning: You have reached your conversation limit." else alert1
    (.ok (conv, alert2),
     { st1 with convs := st1.convs ++ [conv], nextConvId := st1.nextConvId + 1 })

/-- SendMessage.mutate (chat/schema.py, lines 137-161): the character-limit
check runs first, then the conversation lookup, then the membership check. -/
def SendMessage_mutate (u : Nat) (conversation_id : Nat) (text : String)
    (st : State) : Except String Message × State :=
  let message_length := text.length
  let r := check_message_limits u message_length st
  let st1 := r.2
  if !r.1.1 then
    (.error ("Your message exceeds your character limit. out of "
        ++ toString (get_or_create_user_subscription u st1).1.plan.max_characters
        ++ "."), st1)
  else
    match st1.convs.find? (fun c => c.id == conversation_id) with
    | none => (.error "Conversation not found", st1)
    | some c =>
      if u ∈ c.members then
        let m : Message :=
          { id := st1.nextMsgId, conversation := c.id, sender := u, text := text }
        (.ok m, { st1 with msgs := st1.msgs ++ [m], nextMsgId := st1.nextMsgId + 1 })
      else (.error "Access denied", st1)

/-! ### Concrete store states used by the witnesses -/

/-- The bootstrap Free plan with the fixed fallback values. -/
def freePlan : Plan :=
  { id := 0
    name := "Free"
    description := "Basic free plan with limited usage"
    price := 0
    max_characters := 5
    max_conversations := 3
    is_active := true
    is_default := true }

/-- A store with the Free plan and user 1 already subscribed to it. -/
def S0 : State :=
  { users := [1, 2]
    plans := [freePlan]
    subs := [{ user := 1, plan := freePlan }]
    convs := []
    msgs := []
    nextPlanId := 1
    nextConvId := 0
    nextMsgId := 0 }

/-- An empty store: no plans, no subscriptions. -/
def SE : State :=
  { users := [1]
    plans := []
    subs := []
    convs := []
    msgs := []
    nextPlanId := 0
    nextConvId := 0
    nextMsgId := 0 }

/-- S0 with user 1 already owning three conversations (at the cap). -/
def S3 : State :=
  { S0 with
    convs :=
      [ { id := 0, title := "a", owner := 1, members := [1] }
      , { id := 1, title := "b", owner := 1, members := [1] }
      , { id := 2, title := "c", owner := 1, members := [1] } ]
    nextConvId := 3 }

/-- A non-default inactive plan used to exercise store-order picking. -/
def proPlan : Plan :=
  { id := 1
    name := "Pro"
    description := "paid"
    price := 10
    max_characters := 100
    max_conversations := 10
    is_active := false
    is_default := false }

/-- A second plan flagged default, to exercise the multiple-defaults pick. -/
def duplicateDefaultPlan : Plan :=
  { id := 2
    name := "Dup"
    description := "second default"
    price := 1
    max_characters := 7
    max_conversations := 4
    is_active := true
    is_default := true }

/-- A store whose plan table holds a non-default plan first, then two plans
flagged default. -/
def S2 : State :=
  { users := [1]
    plans := [proPlan, freePlan, duplicateDefaultPlan]
    subs := []
    convs := []
    msgs := []
    nextPlanId := 3
    nextConvId := 0
    nextMsgId := 0 }

/-! ### Helper lemmas about the store operations -/

theorem find?_append_none {α : Type} (p : α → Bool) {l1 : List α}
    (l2 : List α) (h : l1.find? p = none) :
    (l1 ++ l2).find? p = l2.find? p := by
  induction l1 with
  | nil => rfl
  | cons a l ih =>
    rw [List.find?_cons] at h
    rw [List.cons_append, List.find?_cons]
    cases hp : p a with
    | true => simp [hp] at h
    | false =>
      simp only [hp] at h ⊢
      exact ih h

theorem get_default_plan_subs (st : State) :
    (get_default_plan st).2.subs = st.subs := by
  unfold get_default_plan
  split <;> rfl

theorem get_default_plan_convs (st : State) :
    (get_default_plan st).2.convs = st.convs := by
  unfold get_default_plan
  split <;> rfl

theorem get_default_plan_msgs (st : State) :
    (get_default_plan st).2.msgs = st.msgs := by
  unfold get_default_plan
  split <;> rfl

theorem goc_found (u : Nat) (st : State) (s : UserSubscription)
    (h : st.subs.find? (fun t => t.user == u) = some s) :
    get_or_create_user_subscription u st = (s, st) := by
  unfold get_or_create_user_subscription
  rw [h]

theorem goc_find (u : Nat) (st : State) :
    (get_or_create_user_subscription u st).2.subs.find? (fun t => t.user == u) =
      some (get_or_create_user_subscription u st).1 := by
  cases h : st.subs.find? (fun t => t.user == u) with
  | some s => simp [get_or_create_user_subscription, h]
  | none =>
    simp only [get_or_create_user_subscription, h]
    rw [get_default_plan_subs]
    rw [find?_append_none _ _ h]
    simp [List.find?]

theorem goc_convs (u : Nat) (st : State) :
    (get_or_create_user_subscription u st).2.convs = st.convs := by
  unfold get_or_create_user_subscription
  split
  · rfl
  · exact get_default_plan_convs st

theorem goc_msgs (u : Nat) (st : State) :
    (get_or_create_user_subscription u st).2.msgs = st.msgs := by
  unfold get_or_create_user_subscription
  split
  · rfl
  · exact get_default_plan_msgs st

theorem goc_idem (u : Nat) (st : State) :
    get_or_create_user_subscription u (get_or_create_user_subscription u st).2 =
      ((get_or_create_user_subscription u st).1,
       (get_or_create_user_subscription u st).2) :=
  goc_found u (get_or_create_user_subscription u st).2
    (get_or_create_user_subscription u st).1 (goc_find u st)

theorem check_message_limits_state (u L : Nat) (st : State) :
    (check_message_limits u L st).2 = (get_or_create_user_subscription u st).2 := by
  simp only [check_message_limits]
  split <;> rfl

theorem check_conversation_limits_state (u : Nat) (st : State) :
    (check_conversation_limits u st).2 =
      (get_or_create_user_subscription u st).2 := by
  simp only [check_conversation_limits]
  split <;> rfl

theorem gdp_fst_congr (st1 st2 : State) (hp : st1.plans = st2.plans)
    (hn : st1.nextPlanId = st2.nextPlanId) :
    (get_default_plan st1).1 = (get_default_plan st2).1 := by
  unfold get_default_plan
  cases h : st2.plans.find? (fun p => p.is_default) with
  | some p => rw [hp, h]
  | none => rw [hp, h, hn]

theorem goc_fst_congr (u : Nat) (st1 st2 : State) (hs : st1.subs = st2.subs)
    (hp : st1.plans = st2.plans) (hn : st1.nextPlanId = st2.nextPlanId) :
    (get_or_create_user_subscription u st1).1 =
      (get_or_create_user_subscription u st2).1 := by
  unfold get_or_create_user_subscription
  cases h : st2.subs.find? (fun s => s.user == u) with
  | some s => rw [hs, h]
  | none =>
    rw [hs, h]
    simp only [gdp_fst_congr st1 st2 hp hn]

/-! ### Claim theorems -/

/-- C1: for a user whose (lazily resolved) plan has `max_characters = M` and
any message length `L`, `check_message_limits` returns exactly
`(M - L ≥ 0, M - L)` over the integers: `remaining` is unclamped and is
negative exactly when the check denies. -/
theorem check_message_limits_exact (u L M : Nat) (st : State)
    (hM : (get_or_create_user_subscription u st).1.plan.max_characters = M) :
    check_message_limits u L st =
      ((decide ((M : Int) - (L : Int) ≥ 0), (M : Int) - (L : Int)),
       (get_or_create_user_subscription u st).2) := by
  simp only [check_message_limits, hM]
  split
  next h => simp [h]
  next h => simp [h]

/-- Witness for C1: user 1 on the Free plan (max_characters = 5) sending a
message of length 6 gets `(false, -1)`. -/
theorem check_message_limits_exact_witness :
    (get_or_create_user_subscription 1 S0).1.plan.max_characters = 5 ∧
    check_message_limits 1 6 S0 =
      ((decide (((5 : Nat) : Int) - ((6 : Nat) : Int) ≥ 0),
        ((5 : Nat) : Int) - ((6 : Nat) : Int)),
       (get_or_create_user_subscription 1 S0).2) :=
  ⟨by decide, check_message_limits_exact 1 6 5 S0 (by decide)⟩

/-- C2: for a user whose plan has `max_conversations = C` and who owns `k`
conversations, `check_conversation_limits` returns exactly
`(C - (k+1) ≥ 0, C - (k+1))`; moreover only owned conversations count — a
conversation the user merely joined as a member leaves the result
unchanged. -/
theorem check_conversation_limits_exact (u C k : Nat) (st : State)
    (hC : (get_or_create_user_subscription u st).1.plan.max_conversations = C)
    (hk : (st.convs.filter (fun c => c.owner == u)).length = k) :
    check_conversation_limits u st =
      ((decide ((C : Int) - ((k : Int) + 1) ≥ 0), (C : Int) - ((k : Int) + 1)),
       (get_or_create_user_subscription u st).2) ∧
    (∀ c : Conversation, c.owner ≠ u →
      (check_conversation_limits u { st with convs := st.convs ++ [c] }).1 =
        (check_conversation_limits u st).1) := by
  constructor
  · simp only [check_conversation_limits, goc_convs, hk, hC]
    split
    next h => simp [h]
    next h => simp [h]
  · intro c hc
    have hfc : (c.owner == u) = false := by
      rw [beq_eq_false_iff_ne]
      exact hc
    simp only [check_conversation_limits, goc_convs]
    rw [goc_fst_congr u { st with convs := st.convs ++ [c] } st rfl rfl rfl]
    simp only [List.filter_append, List.filter_cons, hfc, Bool.false_eq_true,
      if_false, List.filter_nil, List.append_nil]
    split <;> rfl

/-- Witness for C2: user 1 on the Free plan (max_conversations = 3) owning
three conversations (state S3) gets `(false, -1)`; adding a conversation
owned by user 2 that user 1 merely joined changes nothing. -/
theorem check_conversation_limits_exact_witness :
    (get_or_create_user_subscription 1 S3).1.plan.max_conversations = 3 ∧
    (S3.convs.filter (fun c => c.owner == 1)).length = 3 ∧
    check_conversation_limits 1 S3 =
      ((decide (((3 : Nat) : Int) - (((3 : Nat) : Int) + 1) ≥ 0),
        ((3 : Nat) : Int) - (((3 : Nat) : Int) + 1)),
       (get_or_create_user_subscription 1 S3).2) ∧
    (check_conversation_limits 1
        { S3 with convs := S3.convs ++
            [{ id := 9, title := "z", owner := 2, members := [2, 1] }] }).1 =
      (check_conversation_limits 1 S3).1 :=
  ⟨by decide, by decide,
   (check_conversation_limits_exact 1 3 3 S3 (by decide) (by decide)).1,
   (check_conversation_limits_exact 1 3 3 S3 (by decide) (by decide)).2
     { id := 9, title := "z", owner := 2, members := [2, 1] } (by decide)⟩

theorem check_message_limits_eq (u L : Nat) (st : State) :
    check_message_limits u L st =
      ((decide (((get_or_create_user_subscription u st).1.plan.max_characters : Int)
          - (L : Int) ≥ 0),
        ((get_or_create_user_subscription u st).1.plan.max_characters : Int)
          - (L : Int)),
       (get_or_create_user_subscription u st).2) := by
  simp only [check_message_limits]
  split
  next h => simp [h]
  next h => simp [h]

theorem goc_user (u : Nat) (st : State) :
    (get_or_create_user_subscription u st).1.user = u := by
  cases h : st.subs.find? (fun s => s.user == u) with
  | some s =>
    have hs : s.user = u := by simpa using List.find?_some h
    rw [goc_found u st s h]
    exact hs
  | none => simp [get_or_create_user_subscription, h]

theorem save_subscription_find (l : List UserSubscription) (v : Nat)
    (s2 : UserSubscription) (hs : s2.user = v)
    (h : (l.find? (fun t => t.user == v)).isSome = true) :
    (save_subscription l s2).find? (fun t => t.user == v) = some s2 := by
  induction l with
  | nil => simp [List.find?] at h
  | cons a l ih =>
    cases ha : a.user == v with
    | true => simp [save_subscription, hs, ha, List.find?_cons]
    | false =>
      simp only [List.find?_cons, ha] at h
      simp only [save_subscription, hs, ha, Bool.false_eq_true, if_false,
        List.find?_cons]
      exact ih h

/-- C10: get_default_plan is total over every plan-store state: a plan is
always returned (the return type is `Plan × State`, never an absence
marker); when some plans are flagged default it deterministically returns
the first such plan in store order with no mutation, and only when zero
plans are flagged default does it create the fallback Free plan, however
many non-default plans exist. -/
theorem get_default_plan_total_first_pick (st : State) :
    (∀ l1 p l2, st.plans = l1 ++ p :: l2 → (∀ q ∈ l1, q.is_default = false) →
        p.is_default = true → get_default_plan st = (p, st)) ∧
    ((∀ q ∈ st.plans, q.is_default = false) →
      ((get_default_plan st).1.name = "Free" ∧
       (get_default_plan st).1.price = 0 ∧
       (get_default_plan st).1.max_characters = 5 ∧
       (get_default_plan st).1.max_conversations = 3 ∧
       (get_default_plan st).1.is_active = true ∧
       (get_default_plan st).1.is_default = true ∧
       (get_default_plan st).2.plans = st.plans ++ [(get_default_plan st).1])) := by
  constructor
  · intro l1 p l2 h hl1 hp
    have h1 : l1.find? (fun q => q.is_default) = none :=
      List.find?_eq_none.mpr (fun q hq => by simp [hl1 q hq])
    have h2 : st.plans.find? (fun q => q.is_default) = some p := by
      rw [h, find?_append_none _ _ h1, List.find?_cons, hp]
    unfold get_default_plan
    rw [h2]
  · intro hall
    have h2 : st.plans.find? (fun q => q.is_default) = none :=
      List.find?_eq_none.mpr (fun q hq => by simp [hall q hq])
    unfold get_default_plan
    rw [h2]
    exact ⟨rfl, rfl, rfl, rfl, rfl, rfl, rfl⟩

/-- Witness for C10: in S2 the plan table is a non-default plan followed by
two plans flagged default; the first default in store order is picked with
no mutation. -/
theorem get_default_plan_total_first_pick_witness :
    get_default_plan S2 = (freePlan, S2) :=
  (get_default_plan_total_first_pick S2).1 [proPlan] freePlan
    [duplicateDefaultPlan] rfl (by decide) rfl

/-- C4: for a user with no prior subscription, get_or_create_user_subscription
creates and returns a subscription bound to the plan currently flagged
is_default (when one exists), appending exactly one subscription row, and a
second call returns the same subscription with no further creation. -/
theorem goc_fresh_default_and_idempotent (u : Nat) (st : State)
    (h : st.subs.find? (fun s => s.user == u) = none) :
    (∀ p, st.plans.find? (fun q => q.is_default) = some p →
        (get_or_create_user_subscription u st).1.plan = p) ∧
    ((get_or_create_user_subscription u st).2.subs =
        st.subs ++ [(get_or_create_user_subscription u st).1]) ∧
    (get_or_create_user_subscription u
        (get_or_create_user_subscription u st).2 =
      ((get_or_create_user_subscription u st).1,
       (get_or_create_user_subscription u st).2)) := by
  refine ⟨?_, ?_, goc_idem u st⟩
  · intro p hp
    simp [get_or_create_user_subscription, h, get_default_plan, hp]
  · simp [get_or_create_user_subscription, h, get_default_plan_subs]

/-- Witness for C4: user 2 has no subscription in S0; the first call binds
them to the default Free plan and the second call is a no-op returning the
same row. -/
theorem goc_fresh_default_and_idempotent_witness :
    (get_or_create_user_subscription 2 S0).1.plan = freePlan ∧
    (get_or_create_user_subscription 2 S0).2.subs =
      S0.subs ++ [(get_or_create_user_subscription 2 S0).1] ∧
    get_or_create_user_subscription 2 (get_or_create_user_subscription 2 S0).2 =
      ((get_or_create_user_subscription 2 S0).1,
       (get_or_create_user_subscription 2 S0).2) :=
  ⟨(goc_fresh_default_and_idempotent 2 S0 rfl).1 freePlan rfl,
   (goc_fresh_default_and_idempotent 2 S0 rfl).2.1,
   (goc_fresh_default_and_idempotent 2 S0 rfl).2.2⟩

/-- C5: for a user with no subscription in a store with no plan flagged
default, get_or_create_user_subscription creates the fallback default plan
with the fixed bootstrap values (zero price, caps 5 and 3, active, default)
and binds the new subscription to it. -/
theorem goc_fallback_bootstrap (u : Nat) (st : State)
    (h1 : st.subs.find? (fun s => s.user == u) = none)
    (h2 : st.plans.find? (fun q => q.is_default) = none) :
    (get_or_create_user_subscription u st).1.user = u ∧
    (get_or_create_user_subscription u st).1.plan.name = "Free" ∧
    (get_or_create_user_subscription u st).1.plan.price = 0 ∧
    (get_or_create_user_subscription u st).1.plan.max_characters = 5 ∧
    (get_or_create_user_subscription u st).1.plan.max_conversations = 3 ∧
    (get_or_create_user_subscription u st).1.plan.is_active = true ∧
    (get_or_create_user_subscription u st).1.plan.is_default = true ∧
    (get_or_create_user_subscription u st).2.plans =
      st.plans ++ [(get_or_create_user_subscription u st).1.plan] ∧
    (get_or_create_user_subscription u st).2.subs =
      st.subs ++ [(get_or_create_user_subscription u st).1] := by
  unfold get_or_create_user_subscription
  rw [h1]
  unfold get_default_plan
  rw [h2]
  exact ⟨rfl, rfl, rfl, rfl, rfl, rfl, rfl, rfl, rfl⟩

/-- Witness for C5: in the empty store SE, provisioning user 1 creates the
bootstrap Free plan and binds the new subscription to it. -/
theorem goc_fallback_bootstrap_witness :
    (get_or_create_user_subscription 1 SE).1.user = 1 ∧
    (get_or_create_user_subscription 1 SE).1.plan.name = "Free" ∧
    (get_or_create_user_subscription 1 SE).1.plan.price = 0 ∧
    (get_or_create_user_subscription 1 SE).1.plan.max_characters = 5 ∧
    (get_or_create_user_subscription 1 SE).1.plan.max_conversations = 3 ∧
    (get_or_create_user_subscription 1 SE).1.plan.is_active = true ∧
    (get_or_create_user_subscription 1 SE).1.plan.is_default = true ∧
    (get_or_create_user_subscription 1 SE).2.plans =
      SE.plans ++ [(get_or_create_user_subscription 1 SE).1.plan] ∧
    (get_or_create_user_subscription 1 SE).2.subs =
      SE.subs ++ [(get_or_create_user_subscription 1 SE).1] :=
  goc_fallback_bootstrap 1 SE rfl rfl

/-- C3: change_user_plan returns true and overwrites the subscription plan
reference iff an active plan with the given id exists; when no active plan
matches it performs no mutation at all and returns false; in the success
case a subsequent get_or_create_user_subscription reads back exactly the
new plan. -/
theorem change_user_plan_spec (u plan_id : Nat) (st : State) :
    ((change_user_plan u plan_id st).1 = true ↔
       ∃ p ∈ st.plans, p.id = plan_id ∧ p.is_active = true) ∧
    (st.plans.find? (fun p => p.id == plan_id && p.is_active) = none →
       change_user_plan u plan_id st = (false, st)) ∧
    (∀ p, st.plans.find? (fun q => q.id == plan_id && q.is_active) = some p →
       (get_or_create_user_subscription u
           (change_user_plan u plan_id st).2).1.plan = p) := by
  refine ⟨?_, ?_, ?_⟩
  · cases h : st.plans.find? (fun p => p.id == plan_id && p.is_active) with
    | none =>
      simp only [change_user_plan, h]
      refine iff_of_false (by simp) ?_
      rintro ⟨p, hmem, hid, hact⟩
      have hnp := List.find?_eq_none.mp h p hmem
      simp [hid, hact] at hnp
    | some p =>
      simp only [change_user_plan, h]
      have hm := List.mem_of_find?_eq_some h
      have hpred : p.id = plan_id ∧ p.is_active = true := by
        simpa using List.find?_some h
      exact iff_of_true (by trivial) ⟨p, hm, hpred.1, hpred.2⟩
  · intro h
    simp [change_user_plan, h]
  · intro p hp
    simp only [change_user_plan, hp]
    have hkey := save_subscription_find
      (get_or_create_user_subscription u st).2.subs u
      { (get_or_create_user_subscription u st).1 with plan := p }
      (goc_user u st) (by rw [goc_find]; rfl)
    rw [goc_found u _ _ hkey]

/-- Witness for C3: plan 0 (freePlan) is active in S0, so changing user 1 to
it succeeds and reads back as the subscription plan; plan id 5 matches
nothing, so the call declines and leaves S0 untouched. -/
theorem change_user_plan_spec_witness :
    (get_or_create_user_subscription 1 (change_user_plan 1 0 S0).2).1.plan =
      freePlan ∧
    change_user_plan 1 5 S0 = (false, S0) :=
  ⟨(change_user_plan_spec 1 0 S0).2.2 freePlan rfl,
   (change_user_plan_spec 1 5 S0).2.1 rfl⟩

/-- C6: creating a subscription plan whose name equals an existing plan name
is declined as a result value (success = false) with the store unchanged;
the decline is an ok-result, not a raised fault. -/
theorem create_plan_duplicate_name (name description : String)
    (mc mv : Nat) (price : Int) (ia : Bool) (st : State)
    (h : st.plans.any (fun p => p.name == name) = true) :
    CreateSubscriptionPlan_mutate true name description mc mv price ia st =
      .ok ({ success := false
             plan := none
             message := "A subscription plan with the name \x27" ++ name ++
               "\x27 already exists" }, st) := by
  simp [CreateSubscriptionPlan_mutate, h]

/-- Witness for C6: S0 already holds a plan named Free, so creating another
plan named Free is declined without mutation. -/
theorem create_plan_duplicate_name_witness :
    S0.plans.any (fun p => p.name == "Free") = true ∧
    CreateSubscriptionPlan_mutate true "Free" "again" 9 9 2 true S0 =
      .ok ({ success := false
             plan := none
             message := "A subscription plan with the name \x27" ++ "Free" ++
               "\x27 already exists" }, S0) :=
  ⟨by decide, create_plan_duplicate_name "Free" "again" 9 9 2 true S0 (by decide)⟩

/-- C7: for an allowed conversation creation, the mutation returns the
low-quota warning exactly when the remaining value of
check_conversation_limits is 0 (limit reached) or 1 (only one remaining),
and no warning for every other remaining value. -/
theorem create_conversation_alert (u : Nat) (title : String)
    (member_ids : List Nat) (st : State)
    (h : (check_conversation_limits u st).1.1 = true) :
    (CreateConversation_mutate u title member_ids st).1 =
      .ok (created_conversation u title member_ids
            (check_conversation_limits u st).2,
        if (check_conversation_limits u st).1.2 = 0 then
          some "Warning: You have reached your conversation limit."
        else if (check_conversation_limits u st).1.2 = 1 then
          some "Warning: You have only one conversation remaining."
        else none) := by
  simp [CreateConversation_mutate, h, beq_iff_eq]

/-- Witness for C7: user 1 in S0 owns no conversation and the Free plan
allows 3, so creation is allowed with remaining = 2 and no warning. -/
theorem create_conversation_alert_witness :
    (check_conversation_limits 1 S0).1.1 = true ∧
    (CreateConversation_mutate 1 "t" [] S0).1 =
      .ok (created_conversation 1 "t" []
            (check_conversation_limits 1 S0).2,
        if (check_conversation_limits 1 S0).1.2 = 0 then
          some "Warning: You have reached your conversation limit."
        else if (check_conversation_limits 1 S0).1.2 = 1 then
          some "Warning: You have only one conversation remaining."
        else none) :=
  ⟨rfl, create_conversation_alert 1 "t" [] S0 rfl⟩

/-- C8: conversation creation is gated on check_conversation_limits: when
the check denies, the mutation raises an error and appends no conversation,
so the conversation table and the user-owned count are unchanged. -/
theorem create_conversation_denied (u : Nat) (title : String)
    (member_ids : List Nat) (st : State)
    (h : (check_conversation_limits u st).1.1 = false) :
    (CreateConversation_mutate u title member_ids st).1 =
      .error ("You have reached your maximum conversation limit. Your plan allows "
        ++ toString (get_or_create_user_subscription u
            (check_conversation_limits u st).2).1.plan.max_conversations
        ++ " conversations.") ∧
    (CreateConversation_mutate u title member_ids st).2.convs = st.convs ∧
    ((CreateConversation_mutate u title member_ids st).2.convs.filter
        (fun c => c.owner == u)).length =
      (st.convs.filter (fun c => c.owner == u)).length := by
  have h2 : (CreateConversation_mutate u title member_ids st).2 =
      (check_conversation_limits u st).2 := by
    simp [CreateConversation_mutate, h]
  have h3 : (CreateConversation_mutate u title member_ids st).2.convs =
      st.convs := by
    rw [h2, check_conversation_limits_state, goc_convs]
  refine ⟨?_, h3, by rw [h3]⟩
  simp [CreateConversation_mutate, h]

/-- Witness for C8: user 1 in S3 already owns three conversations against a
cap of 3, so the check denies, the mutation errors, and the conversation
table is untouched. -/
theorem create_conversation_denied_witness :
    (CreateConversation_mutate 1 "t" [] S3).1 =
      .error ("You have reached your maximum conversation limit. Your plan allows "
        ++ toString (get_or_create_user_subscription 1
            (check_conversation_limits 1 S3).2).1.plan.max_conversations
        ++ " conversations.") ∧
    (CreateConversation_mutate 1 "t" [] S3).2.convs = S3.convs ∧
    ((CreateConversation_mutate 1 "t" [] S3).2.convs.filter
        (fun c => c.owner == 1)).length =
      (S3.convs.filter (fun c => c.owner == 1)).length :=
  create_conversation_denied 1 "t" [] S3 rfl

/-- C9: SendMessage evaluates the character limit before the conversation
lookup and membership check: whenever the text length exceeds the plan
max_characters, it fails with the character-limit error and stores no
message, for every store state — in particular also when the conversation
id matches nothing or the sender is not a member. -/
theorem send_message_limit_first (u cid : Nat) (text : String) (st : State)
    (M : Nat)
    (hM : (get_or_create_user_subscription u st).1.plan.max_characters = M)
    (hL : M < text.length) :
    SendMessage_mutate u cid text st =
      (.error ("Your message exceeds your character limit. out of "
          ++ toString M ++ "."),
       (check_message_limits u text.length st).2) ∧
    (SendMessage_mutate u cid text st).2.msgs = st.msgs := by
  have hfalse : (check_message_limits u text.length st).1.1 = false := by
    rw [check_message_limits_eq]
    simp only [hM, decide_eq_false_iff_not]
    omega
  have hM2 : (get_or_create_user_subscription u
      (check_message_limits u text.length st).2).1.plan.max_characters = M := by
    rw [check_message_limits_state, goc_idem u st]
    exact hM
  constructor
  · simp [SendMessage_mutate, hfalse, hM2]
  · simp [SendMessage_mutate, hfalse, check_message_limits_state, goc_msgs]

/-- Witness for C9: user 1 on the Free plan (cap 5) sends a 6-character text
into the nonexistent conversation 42 of S0; the failure is the
character-limit error, not the missing-conversation error, and no message
is stored. -/
theorem send_message_limit_first_witness :
    SendMessage_mutate 1 42 "abcdef" S0 =
      (.error ("Your message exceeds your character limit. out of "
          ++ toString (5 : Nat) ++ "."),
       (check_message_limits 1 "abcdef".length S0).2) ∧
    (SendMessage_mutate 1 42 "abcdef" S0).2.msgs = S0.msgs :=
  send_message_limit_first 1 42 "abcdef" S0 5 (by decide) (by decide)
